import Mathlib

/-!
Verification of the rocketapi-rust client library.

The repository has four source files:
  * `src/api.rs`        — `RocketAPI`: the transport adapter (base URL, token,
    timeout; builds one authenticated POST per call).
  * `src/errors.rs`     — `RocketAPIError`: `BadResponse`, `NotFound`,
    `RequestError`.
  * `src/instagramapi.rs` — `InstagramAPI`: session state (`last_response`,
    `counter`) plus the envelope-classifying `request` dispatcher and ~30
    payload-building domain methods.
  * `src/threadsapi.rs` — `ThreadsAPI`: the same dispatcher for the Threads
    namespace.

The embedding below is shallow: JSON values are an inductive tree mirroring
`serde_json::Value` (numbers are modelled as arbitrary-precision integers,
covering the i64/u64 values this client ever builds or compares; non-integral
floating-point numbers are outside the model), the network side effect of
`RocketAPI::request` is abstracted as an `Except ReqError Json` transport
result handed to the dispatcher, and the `u32` session counter is a `Nat`
reduced modulo 2^32 at the increment (the wrapping semantics of a release
build; a debug build would panic at the same input instead of wrapping, so
at `u32::MAX` the counter does not advance by one in either profile).
-/

/-- JSON document tree, mirroring `serde_json::Value`. `num` carries an
unbounded integer: the client only ever builds integer numbers (`u64` ids,
`u8`/`u16` counts) and only ever reads integers via `as_i64`. -/
inductive Json where
  | null
  | bool (b : Bool)
  | num (n : Int)
  | str (s : String)
  | arr (xs : List Json)
  | obj (fields : List (String × Json))

/-- Field lookup `v[key]` on a `serde_json::Value` (the `Index<&str>` impl):
on an object it returns the value stored at the key, and `Null` when the key
is missing or the value is not an object. -/
def Json.get (v : Json) (key : String) : Json :=
  match v with
  | .obj fields =>
    match fields.find? (fun p => p.1 == key) with
    | some p => p.2
    | none => .null
  | _ => .null

/-- The `PartialEq<&str>` comparison `value == "literal"` on a
`serde_json::Value`: true exactly when the value is a string equal to the
literal. -/
def Json.eqStr (v : Json) (s : String) : Bool :=
  match v with
  | .str t => t == s
  | _ => false

/-- `Value::as_i64`: `Some` exactly when the value is an integer number
representable as an `i64`. -/
def Json.asI64 (v : Json) : Option Int :=
  match v with
  | .num n => if -9223372036854775808 ≤ n ∧ n < 9223372036854775808 then some n else none
  | _ => none

/-- `Value::as_str`: `Some` exactly when the value is a string. -/
def Json.asStr (v : Json) : Option String :=
  match v with
  | .str s => some s
  | _ => none

/-- Insert-or-replace of a key in an association list (the effect of
`map.insert(key, value)` on the underlying map of an object). -/
def insertKey (fields : List (String × Json)) (key : String) (v : Json) :
    List (String × Json) :=
  if fields.any (fun p => p.1 == key) then
    fields.map (fun p => if p.1 == key then (key, v) else p)
  else
    fields ++ [(key, v)]

/-- The assignment `payload[key] = value` (the `IndexMut<&str>` impl of
`serde_json::Value`): inserts or replaces the key of an object; `Null`
becomes a one-entry object. Every call site in this repository assigns into
a value that is already an object (the non-object non-null case, a panic in
serde_json, is unreachable here and left as the identity). -/
def Json.setKey (v : Json) (key : String) (x : Json) : Json :=
  match v with
  | .obj fields => .obj (insertKey fields key x)
  | .null => .obj [(key, x)]
  | other => other

/-- Whether an object carries a given key at its top level. -/
def Json.hasKey (v : Json) (key : String) : Bool :=
  match v with
  | .obj fields => fields.any (fun p => p.1 == key)
  | _ => false

/-- Opaque stand-in for `reqwest::Error` (network fault, timeout, or a body
that failed to parse as JSON at the transport boundary). -/
structure ReqError where
  cause : String

/-- `RocketAPIError` from `src/errors.rs`. -/
inductive RocketAPIError where
  | BadResponse (v : Json)
  | NotFound (v : Json)
  | RequestError (e : ReqError)

/-- `RocketAPI` from `src/api.rs`: base URL, token, and the per-request
timeout (an opaque duration, modelled as its nanosecond count). -/
structure RocketAPI where
  base_url : String
  token : String
  max_timeout : Nat

/-- `RocketAPI::new`: fixes the base URL and stores the caller's token and
timeout. -/
def RocketAPI.new (token : String) (max_timeout : Nat) : RocketAPI :=
  { base_url := "https://v1.rocketapi.io/"
    token := token
    max_timeout := max_timeout }

/-- The HTTP request assembled by `RocketAPI::request` (src/api.rs lines
25–33) before it is sent: the POST target URL, the two headers, and the JSON
body. The network send itself is abstracted away; dispatchers receive the
transport outcome as an explicit `Except` value. -/
structure BuiltRequest where
  url : String
  content_type : String
  authorization : String
  body : Json

/-- The pure request-construction part of `RocketAPI::request`:
`url = format!("{}{}", base_url, method)`, a constant content-type header,
and `Authorization: format!("Token {}", token)`. -/
def RocketAPI.buildRequest (api : RocketAPI) (method : String) (data : Json) :
    BuiltRequest :=
  { url := api.base_url ++ method
    content_type := "application/json"
    authorization := "Token " ++ api.token
    body := data }

/-- `InstagramAPI` from `src/instagramapi.rs`: the transport adapter plus the
diagnostic session state (`last_response`, `counter : u32`). -/
structure InstagramAPI where
  api : RocketAPI
  last_response : Json
  counter : Nat

/-- `InstagramAPI::new`. -/
def InstagramAPI.new (token : String) (max_timeout : Nat) : InstagramAPI :=
  { api := RocketAPI.new token max_timeout
    last_response := .null
    counter := 0 }

/-- `InstagramAPI::request` (src/instagramapi.rs lines 34–58). `method` and
`data` are forwarded to the transport; `tr` is the transport's outcome for
exactly that call. On transport success the raw envelope is stored in
`last_response`, the `u32` counter is incremented (wrapping modulo 2^32),
and the envelope is classified; on transport failure the state is untouched. -/
def InstagramAPI.request (st : InstagramAPI) (method : String) (data : Json)
    (tr : Except ReqError Json) : Except RocketAPIError Json × InstagramAPI :=
  match method, data, tr with
  | _, _, .ok response =>
    let st' : InstagramAPI :=
      { st with last_response := response, counter := (st.counter + 1) % 4294967296 }
    let result : Except RocketAPIError Json :=
      if (response.get "status").eqStr "done" then
        let response_body := response.get "response"
        let status_code : Int := ((response_body.get "status_code").asI64).getD 0
        let content_type : String := ((response_body.get "content_type").asStr).getD ""
        if status_code == 200 && content_type == "application/json" then
          .ok (response_body.get "body")
        else if status_code == 404 then
          .error (.NotFound response)
        else
          .error (.BadResponse response)
      else
        .error (.BadResponse response)
    (result, st')
  | _, _, .error e => (.error (.RequestError e), st)

/-- `ThreadsAPI` from `src/threadsapi.rs`: same fields as `InstagramAPI`. -/
structure ThreadsAPI where
  api : RocketAPI
  last_response : Json
  counter : Nat

/-- `ThreadsAPI::new`. -/
def ThreadsAPI.new (token : String) (max_timeout : Nat) : ThreadsAPI :=
  { api := RocketAPI.new token max_timeout
    last_response := .null
    counter := 0 }

/-- `ThreadsAPI::request` (src/threadsapi.rs lines 34–59), embedded the same
way as `InstagramAPI.request`; the Rust bodies are line-for-line identical. -/
def ThreadsAPI.request (st : ThreadsAPI) (method : String) (data : Json)
    (tr : Except ReqError Json) : Except RocketAPIError Json × ThreadsAPI :=
  match method, data, tr with
  | _, _, .ok response =>
    let st' : ThreadsAPI :=
      { st with last_response := response, counter := (st.counter + 1) % 4294967296 }
    let result : Except RocketAPIError Json :=
      if (response.get "status").eqStr "done" then
        let response_body := response.get "response"
        let status_code : Int := ((response_body.get "status_code").asI64).getD 0
        let content_type : String := ((response_body.get "content_type").asStr).getD ""
        if status_code == 200 && content_type == "application/json" then
          .ok (response_body.get "body")
        else if status_code == 404 then
          .error (.NotFound response)
        else
          .error (.BadResponse response)
      else
        .error (.BadResponse response)
    (result, st')
  | _, _, .error e => (.error (.RequestError e), st)

/-- Payload built by `InstagramAPI::get_user_media` (src/instagramapi.rs
lines 103–121): `json!({ "id": user_id, "count": count.unwrap_or(12) })`,
then `payload["max_id"] = json!(max_id)` only when `max_id` is `Some`. -/
def InstagramAPI.get_user_media_payload (user_id : Nat) (count : Option Nat)
    (max_id : Option String) : Json :=
  let payload : Json := .obj [("id", .num user_id), ("count", .num (count.getD 12))]
  match max_id with
  | some m => payload.setKey "max_id" (.str m)
  | none => payload

/-- `InstagramAPI::get_user_media`: builds the payload and dispatches it to
`instagram/user/get_media`. -/
def InstagramAPI.get_user_media (st : InstagramAPI) (user_id : Nat)
    (count : Option Nat) (max_id : Option String) (tr : Except ReqError Json) :
    Except RocketAPIError Json × InstagramAPI :=
  st.request "instagram/user/get_media"
    (InstagramAPI.get_user_media_payload user_id count max_id) tr

/-- Payload built by `ThreadsAPI::get_user_feed` (src/threadsapi.rs lines
93–110): `json!({ "id": user_id })`, then `payload["max_id"] = json!(max)`
only when `max_id` is `Some`. -/
def ThreadsAPI.get_user_feed_payload (user_id : Nat) (max_id : Option String) :
    Json :=
  let payload : Json := .obj [("id", .num user_id)]
  match max_id with
  | some m => payload.setKey "max_id" (.str m)
  | none => payload

/-- `ThreadsAPI::get_user_feed`: builds the payload and dispatches it to
`threads/user/get_feed`. -/
def ThreadsAPI.get_user_feed (st : ThreadsAPI) (user_id : Nat)
    (max_id : Option String) (tr : Except ReqError Json) :
    Except RocketAPIError Json × ThreadsAPI :=
  st.request "threads/user/get_feed"
    (ThreadsAPI.get_user_feed_payload user_id max_id) tr

/-- A character all of whose UTF-8 bytes are legal in an HTTP header value
under the `http` crate's check used by `HeaderValue::from_str`: each byte
must be horizontal tab (9) or lie in 32..=255 excluding 127. An ASCII
character therefore must itself be tab or in 32..=126; any character ≥ 128
encodes to bytes in 128..=255, which all pass. A newline (10) fails. -/
def isValidHeaderChar (c : Char) : Bool :=
  c.toNat == 9 || (decide (32 ≤ c.toNat) && c.toNat != 127) || decide (128 ≤ c.toNat)

/-- `HeaderValue::from_str` (the `http` crate, called with `.unwrap()` at
src/api.rs line 27): succeeds exactly when every character of the string is
a valid header-value character, and errors otherwise — the `.unwrap()` then
panics. -/
def headerValueFromStr (s : String) : Option String :=
  if s.data.all isValidHeaderChar then some s else none

/-- The classification rule exactly as the specification words it (spec
§4.2 step 4, restructured as the claim states it): success needs
`status == "done"`, coerced `status_code = 200` and coerced
`content_type = "application/json"`; otherwise a `done` envelope with
coerced `status_code = 404` is `NotFound`; everything else is
`BadResponse`. Stated from the spec for comparison with the dispatchers
embedded from the source. -/
def claimClassify (e : Json) : Except RocketAPIError Json :=
  let status_code : Int := (((e.get "response").get "status_code").asI64).getD 0
  let content_type : String := (((e.get "response").get "content_type").asStr).getD ""
  if (e.get "status").eqStr "done" && status_code == 200
      && content_type == "application/json" then
    .ok ((e.get "response").get "body")
  else if (e.get "status").eqStr "done" && status_code == 404 then
    .error (.NotFound e)
  else
    .error (.BadResponse e)

/-- Claim C2: when the transport call fails, both dispatchers return the
`RequestError` variant wrapping the underlying cause and leave the whole
session state — in particular `last_response` and `counter` — unchanged. -/
theorem claim_C2_transport_failure :
    ∀ (st : InstagramAPI) (st2 : ThreadsAPI) (method : String) (data : Json)
      (e : ReqError),
    InstagramAPI.request st method data (.error e)
      = (.error (.RequestError e), st)
    ∧ ThreadsAPI.request st2 method data (.error e)
      = (.error (.RequestError e), st2) := by
  intro st st2 method data e
  exact ⟨rfl, rfl⟩

/-- Claim C3 (amended): on every transport success the counter becomes
`(counter + 1) % 2^32` — an increase by exactly 1 except when the `u32`
wraps at `u32::MAX` — `last_response` is overwritten with the new envelope,
and the transport adapter's fields (`base_url`, `token`, `max_timeout`)
are unchanged; the same holds for the Threads dispatcher. -/
theorem claim_C3_amended :
    ∀ (st : InstagramAPI) (st2 : ThreadsAPI) (method : String) (data : Json)
      (e : Json),
    (InstagramAPI.request st method data (.ok e)).2.counter
      = (st.counter + 1) % 4294967296
    ∧ (InstagramAPI.request st method data (.ok e)).2.last_response = e
    ∧ (InstagramAPI.request st method data (.ok e)).2.api = st.api
    ∧ (ThreadsAPI.request st2 method data (.ok e)).2.counter
      = (st2.counter + 1) % 4294967296
    ∧ (ThreadsAPI.request st2 method data (.ok e)).2.last_response = e
    ∧ (ThreadsAPI.request st2 method data (.ok e)).2.api = st2.api := by
  intro st st2 method data e
  exact ⟨rfl, rfl, rfl, rfl, rfl, rfl⟩

/-- Claim C3 (counterexample): at a session whose `u32` counter holds
`u32::MAX = 4294967295`, a dispatch with a successful transport leaves the
counter at 0, not at the starting value plus exactly 1. -/
theorem claim_C3_counterexample :
    (InstagramAPI.request ⟨RocketAPI.new "token" 0, .null, 4294967295⟩
        "instagram/search" (.obj []) (.ok (.obj []))).2.counter = 0
    ∧ (InstagramAPI.request ⟨RocketAPI.new "token" 0, .null, 4294967295⟩
        "instagram/search" (.obj []) (.ok (.obj []))).2.counter
      ≠ 4294967295 + 1 := by
  exact ⟨rfl, by decide⟩

/-- Claim C5: for every transport outcome (failure or arbitrary envelope),
every method path, payload, and identical starting session state, the
Instagram and Threads dispatchers produce the same classified outcome and
the same updated session state. -/
theorem claim_C5_equivalence :
    ∀ (api : RocketAPI) (lr : Json) (c : Nat) (method : String) (data : Json)
      (tr : Except ReqError Json),
    (InstagramAPI.request ⟨api, lr, c⟩ method data tr).1
      = (ThreadsAPI.request ⟨api, lr, c⟩ method data tr).1
    ∧ (InstagramAPI.request ⟨api, lr, c⟩ method data tr).2.last_response
      = (ThreadsAPI.request ⟨api, lr, c⟩ method data tr).2.last_response
    ∧ (InstagramAPI.request ⟨api, lr, c⟩ method data tr).2.counter
      = (ThreadsAPI.request ⟨api, lr, c⟩ method data tr).2.counter
    ∧ (InstagramAPI.request ⟨api, lr, c⟩ method data tr).2.api
      = (ThreadsAPI.request ⟨api, lr, c⟩ method data tr).2.api := by
  intro api lr c method data tr
  cases tr <;> exact ⟨rfl, rfl, rfl, rfl⟩

/-- Claim C7: for every method path and stored configuration the transport
adapter builds the request with URL = base endpoint ++ method path, a
`Content-Type: application/json` header, and an authorization header equal
to the literal `"Token "` followed by the stored credential; the base
endpoint fixed by the constructor is `https://v1.rocketapi.io/`. -/
theorem claim_C7_built_request :
    ∀ (api : RocketAPI) (method : String) (data : Json) (token : String)
      (t : Nat),
    (RocketAPI.buildRequest api method data).url = api.base_url ++ method
    ∧ (RocketAPI.buildRequest api method data).content_type
      = "application/json"
    ∧ (RocketAPI.buildRequest api method data).authorization
      = "Token " ++ api.token
    ∧ (RocketAPI.buildRequest api method data).body = data
    ∧ (RocketAPI.new token t).base_url = "https://v1.rocketapi.io/" := by
  intro api method data token t
  exact ⟨rfl, rfl, rfl, rfl, rfl⟩

/-- Claim C1: on every successful transport call the dispatcher classifies
the envelope exactly as the specification states it — `status = "done"`,
coerced `status_code = 200` and coerced `content_type = "application/json"`
yield `Ok` with the nested `body` (null when absent); otherwise a `"done"`
envelope with `status_code = 404` yields `NotFound` with the full envelope;
every other case yields `BadResponse` with the full envelope. -/
theorem claim_C1_classification :
    ∀ (st : InstagramAPI) (method : String) (data : Json) (e : Json),
    (InstagramAPI.request st method data (.ok e)).1 = claimClassify e := by
  intro st method data e
  cases h1 : (e.get "status").eqStr "done" <;>
    cases h2 : ((((e.get "response").get "status_code").asI64).getD 0 == 200) <;>
      cases h3 : ((((e.get "response").get "content_type").asStr).getD ""
          == "application/json") <;>
        cases h4 : ((((e.get "response").get "status_code").asI64).getD 0 == 404) <;>
          simp [InstagramAPI.request, claimClassify, h1, h2, h3, h4]

/-- Claim C4: classification is total over arbitrary JSON envelopes — for
every JSON document the transport can return, including documents with no
`status` field, a non-object or absent `response`, or wrongly-typed
`status_code`/`content_type` fields (all coerced by `unwrap_or` defaults),
the dispatcher produces one of the three defined outcomes. -/
theorem claim_C4_totality :
    ∀ (st : InstagramAPI) (method : String) (data : Json) (e : Json),
    (InstagramAPI.request st method data (.ok e)).1
      = .ok ((e.get "response").get "body")
    ∨ (InstagramAPI.request st method data (.ok e)).1 = .error (.NotFound e)
    ∨ (InstagramAPI.request st method data (.ok e)).1
      = .error (.BadResponse e) := by
  intro st method data e
  cases h1 : (e.get "status").eqStr "done" <;>
    cases h2 : ((((e.get "response").get "status_code").asI64).getD 0 == 200) <;>
      cases h3 : ((((e.get "response").get "content_type").asStr).getD ""
          == "application/json") <;>
        cases h4 : ((((e.get "response").get "status_code").asI64).getD 0 == 404) <;>
          simp [InstagramAPI.request, h1, h2, h3, h4]

/-- Claim C10: after every dispatch whose transport call succeeded, the
returned value is consistent with the stored diagnostic state, for both
dispatchers: a `NotFound` or `BadResponse` outcome carries exactly the
post-call `last_response`, and an `Ok` outcome carries exactly the `body`
field of the nested `response` object of the post-call `last_response`. -/
theorem claim_C10_consistency :
    ∀ (st : InstagramAPI) (st2 : ThreadsAPI) (method : String) (data : Json)
      (e : Json),
    ((InstagramAPI.request st method data (.ok e)).1
        = .error (.NotFound
            ((InstagramAPI.request st method data (.ok e)).2.last_response))
      ∨ (InstagramAPI.request st method data (.ok e)).1
        = .error (.BadResponse
            ((InstagramAPI.request st method data (.ok e)).2.last_response))
      ∨ (InstagramAPI.request st method data (.ok e)).1
        = .ok ((((InstagramAPI.request st method data
            (.ok e)).2.last_response).get "response").get "body"))
    ∧ ((ThreadsAPI.request st2 method data (.ok e)).1
        = .error (.NotFound
            ((ThreadsAPI.request st2 method data (.ok e)).2.last_response))
      ∨ (ThreadsAPI.request st2 method data (.ok e)).1
        = .error (.BadResponse
            ((ThreadsAPI.request st2 method data (.ok e)).2.last_response))
      ∨ (ThreadsAPI.request st2 method data (.ok e)).1
        = .ok ((((ThreadsAPI.request st2 method data
            (.ok e)).2.last_response).get "response").get "body")) := by
  intro st st2 method data e
  constructor <;>
    (cases h1 : (e.get "status").eqStr "done" <;>
      cases h2 : ((((e.get "response").get "status_code").asI64).getD 0 == 200) <;>
        cases h3 : ((((e.get "response").get "content_type").asStr).getD ""
            == "application/json") <;>
          cases h4 : ((((e.get "response").get "status_code").asI64).getD 0
              == 404) <;>
            simp [InstagramAPI.request, ThreadsAPI.request, h1, h2, h3, h4])

/-- Claim C8 (amended): dispatching twice against a transport that returns
the same envelope both times yields the same classified outcome both times,
and the counter ends at `(start + 2) % 2^32` — exactly start + 2 except
when the `u32` wraps near `u32::MAX`. -/
theorem claim_C8_amended :
    ∀ (st : InstagramAPI) (method : String) (data : Json) (e : Json),
    (InstagramAPI.request st method data (.ok e)).1
      = (InstagramAPI.request
          (InstagramAPI.request st method data (.ok e)).2 method data
          (.ok e)).1
    ∧ (InstagramAPI.request
        (InstagramAPI.request st method data (.ok e)).2 method data
        (.ok e)).2.counter = (st.counter + 2) % 4294967296 := by
  intro st method data e
  refine ⟨rfl, ?_⟩
  show ((st.counter + 1) % 4294967296 + 1) % 4294967296
      = (st.counter + 2) % 4294967296
  rw [Nat.mod_add_mod]

/-- Claim C8 (counterexample): starting from a session whose `u32` counter
holds `u32::MAX = 4294967295`, two dispatches with identical successful
envelopes leave the counter at 1, not at the starting value plus exactly 2. -/
theorem claim_C8_counterexample :
    (InstagramAPI.request
        (InstagramAPI.request ⟨RocketAPI.new "token" 0, .null, 4294967295⟩
          "instagram/search" (.obj []) (.ok (.obj []))).2
        "instagram/search" (.obj []) (.ok (.obj []))).2.counter = 1
    ∧ (InstagramAPI.request
        (InstagramAPI.request ⟨RocketAPI.new "token" 0, .null, 4294967295⟩
          "instagram/search" (.obj []) (.ok (.obj []))).2
        "instagram/search" (.obj []) (.ok (.obj []))).2.counter
      ≠ 4294967295 + 2 := by
  exact ⟨rfl, by decide⟩

/-- Claim C6 (counterexample): calling `get_user_media` with `count = None`
and `max_id = None` produces a payload that does contain a `"count"` key —
the code substitutes the default `count.unwrap_or(12)` instead of omitting
the key. -/
theorem claim_C6_counterexample :
    (InstagramAPI.get_user_media_payload 1 none none).hasKey "count" = true
    ∧ (InstagramAPI.get_user_media_payload 1 none none).get "count"
      = .num 12 := by
  exact ⟨rfl, rfl⟩

/-- Claim C6 (amended): optional pagination arguments passed as `None` are
omitted from the payload entirely (neither present as null nor defaulted) —
`get_user_media` with `max_id = None` has no `"max_id"` key, and likewise
`get_user_feed`; but the optional `count` argument is not omitted when
`None`: it is sent with the substituted default value 12. When `max_id` is
present it is inserted verbatim. -/
theorem claim_C6_amended :
    ∀ (user_id : Nat),
    (InstagramAPI.get_user_media_payload user_id none none).hasKey "max_id"
      = false
    ∧ (InstagramAPI.get_user_media_payload user_id none none).get "count"
      = .num 12
    ∧ (InstagramAPI.get_user_media_payload user_id none none).hasKey "count"
      = true
    ∧ (ThreadsAPI.get_user_feed_payload user_id none).hasKey "max_id" = false
    ∧ (∀ m : String,
        (ThreadsAPI.get_user_feed_payload user_id (some m)).get "max_id"
          = .str m)
    ∧ (∀ m : String,
        (InstagramAPI.get_user_media_payload user_id none (some m)).get
          "max_id" = .str m) := by
  intro user_id
  exact ⟨rfl, rfl, rfl, rfl, fun m => rfl, fun m => rfl⟩

/-- Claim C9 (counterexample): a credential containing a newline makes
`HeaderValue::from_str("Token " ++ credential)` return its error branch, so
the `.unwrap()` at src/api.rs line 27 panics — the header build does not
succeed for arbitrary credential strings. -/
theorem claim_C9_counterexample :
    headerValueFromStr ("Token " ++ "my\ntoken") = none := by
  decide

/-- Claim C9 (amended): the `.unwrap()` on `HeaderValue::from_str` never
hits its error branch provided every character of the stored credential is
a valid header-value character (horizontal tab, a character in 32..=126, or
any character ≥ 128); a credential containing a control character such as a
newline violates this and panics. -/
theorem claim_C9_amended :
    ∀ (token : String),
    token.data.all isValidHeaderChar = true →
    (headerValueFromStr ("Token " ++ token)).isSome = true := by
  intro token h
  have hd : ("Token " ++ token).data = "Token ".data ++ token.data := by
    cases token
    rfl
  have h2 : ("Token " ++ token).data.all isValidHeaderChar = true := by
    rw [hd, List.all_append, h, Bool.and_true]
    decide
  unfold headerValueFromStr
  rw [h2]
  rfl

/-- Claim C9 (witness): the amended statement at the concrete credential
`"abc"`: its characters are all valid header-value characters, and the
header build succeeds. -/
theorem claim_C9_witness :
    "abc".data.all isValidHeaderChar = true
    ∧ (headerValueFromStr ("Token " ++ "abc")).isSome = true := by
  exact ⟨by decide, claim_C9_amended "abc" (by decide)⟩
